import Mathlib

/-!
Shallow embedding of `examples/gallery/simple/save_filtered_df.ipynb`.

The notebook loads the static `autompg` table, builds a `MultiChoice`
widget `years` and a `RangeSlider` widget `mpg`, and defines two reactive
functions:

  @pn.depends(years, mpg)
  def filtered_mpg(yrs, mpg):
      df = autompg
      if years.value:
          df = autompg[autompg.yr.isin(yrs)]
      return df[(df.mpg >= mpg[0]) & (df.mpg <= mpg[1])]

  @pn.depends(years, mpg)
  def filtered_file(yr, mpg):
      df = filtered_mpg(yr, mpg)
      sio = StringIO()
      df.to_csv(sio)
      sio.seek(0)
      return sio

A dataframe is a list of rows; a pandas boolean-series selection
`df[mask]` is embedded as `maskSelect`, which fails (as pandas does) when
the mask is not aligned with the frame, so the embedded functions return
`Except`.  The global `autompg` table and the global widget value
`years.value` read inside `filtered_mpg` are passed explicitly.
-/

/-- Row of the `autompg` sample table.  `idx` is the pandas row index,
kept because `to_csv` writes it; the float-valued columns (`mpg`,
`displ`, `accel`) are embedded as rationals (every value in the table is
an exact decimal). -/
structure Row where
  idx : Nat
  mpg : ℚ
  cyl : Nat
  displ : ℚ
  hp : Nat
  weight : Nat
  accel : ℚ
  yr : Nat
  origin : Nat
  name : String
deriving DecidableEq, Repr

/-- Elementwise meaning of the series comparison `df.mpg >= lo`. -/
def mpg_ge (lo : ℚ) (r : Row) : Bool := decide (lo ≤ r.mpg)

/-- Elementwise meaning of the series comparison `df.mpg <= hi`. -/
def mpg_le (hi : ℚ) (r : Row) : Bool := decide (r.mpg ≤ hi)

/-- Elementwise meaning of the series test `autompg.yr.isin(yrs)`. -/
def yr_isin (yrs : List Nat) (r : Row) : Bool := decide (r.yr ∈ yrs)

/-- Boolean series `autompg.yr.isin(yrs)` over a frame. -/
def series_isin (df : List Row) (yrs : List Nat) : List Bool :=
  df.map (yr_isin yrs)

/-- Boolean series `df.mpg >= lo` over a frame. -/
def series_mpg_ge (df : List Row) (lo : ℚ) : List Bool :=
  df.map (mpg_ge lo)

/-- Boolean series `df.mpg <= hi` over a frame. -/
def series_mpg_le (df : List Row) (hi : ℚ) : List Bool :=
  df.map (mpg_le hi)

/-- Elementwise `&` of two boolean series. -/
def mask_and (a b : List Bool) : List Bool := a.zipWith (· && ·) b

/-- Selection `df[mask]` by a boolean series: pandas raises an
`IndexingError` when the mask is not aligned with the frame, otherwise it
keeps exactly the rows at `true` positions, in order. -/
def maskSelect (df : List Row) (mask : List Bool) : Except String (List Row) :=
  if mask.length = df.length then
    Except.ok (((df.zip mask).filter (fun rb => rb.2)).map Prod.fst)
  else
    Except.error "IndexingError: Unalignable boolean Series provided as indexer"

/-- Embedding of `filtered_mpg`.  `data` is the global `autompg` table and
`yearsValue` the current value of the global `years` widget read by
`if years.value:` (Python truthiness of a list is nonemptiness); `yrs` and
`mpg` are the declared arguments. -/
def filtered_mpg (data : List Row) (yearsValue yrs : List Nat)
    (mpg : ℚ × ℚ) : Except String (List Row) :=
  let df := data
  let step : Except String (List Row) :=
    if yearsValue ≠ [] then maskSelect data (series_isin data yrs)
    else Except.ok df
  match step with
  | Except.error e => Except.error e
  | Except.ok df =>
      maskSelect df (mask_and (series_mpg_ge df mpg.1) (series_mpg_le df mpg.2))

/-- Decimal rendering used by `to_csv` for the float columns: every float
in the table has at most one decimal digit, printed as `whole.tenth`. -/
def fmt1 (q : ℚ) : String :=
  let t : Int := (q * 10).floor
  toString (t / 10) ++ "." ++ toString (t % 10)

/-- CSV line for one row, index column first, as pandas `to_csv` writes it. -/
def row_csv (r : Row) : String :=
  String.intercalate ","
    [toString r.idx, fmt1 r.mpg, toString r.cyl, fmt1 r.displ,
     toString r.hp, toString r.weight, fmt1 r.accel, toString r.yr,
     toString r.origin, r.name]

/-- Embedding of `df.to_csv(sio)` with default options: header line with
an unnamed index column, then one line per row. -/
def to_csv (df : List Row) : String :=
  String.intercalate "," ["", "mpg", "cyl", "displ", "hp", "weight",
    "accel", "yr", "origin", "name"] ++ "\n"
  ++ String.join (df.map (fun r => row_csv r ++ "\n"))

/-- Embedding of `filtered_file`: the returned value is the text content
of the rewound `StringIO` buffer; an exception from `filtered_mpg` would
propagate. -/
def filtered_file (data : List Row) (yearsValue yr : List Nat)
    (mpg : ℚ × ℚ) : Except String String :=
  match filtered_mpg data yearsValue yr mpg with
  | Except.error e => Except.error e
  | Except.ok df => Except.ok (to_csv df)

/-- Global state the two reactive functions can see: the `autompg` table
and the `years` widget value (the only globals the bodies read; neither
body assigns to any global). -/
structure GlobalState where
  autompg : List Row
  years_value : List Nat
deriving DecidableEq

/-- State-passing form of a call `filtered_mpg(yrs, mpg)`: the body reads
the globals and returns, so the state comes back with the result. -/
def run_filtered_mpg (s : GlobalState) (yrs : List Nat) (mpg : ℚ × ℚ) :
    Except String (List Row) × GlobalState :=
  (filtered_mpg s.autompg s.years_value yrs mpg, s)

/-- State-passing form of a call `filtered_file(yr, mpg)`. -/
def run_filtered_file (s : GlobalState) (yr : List Nat) (mpg : ℚ × ℚ) :
    Except String String × GlobalState :=
  (filtered_file s.autompg s.years_value yr mpg, s)

/-! Sample rows of the `autompg` table, used as concrete inputs. -/

/-- Sample row 0 of `autompg` (chevrolet chevelle malibu, model year 70). -/
def r70a : Row :=
  ⟨0, 18, 8, 307, 130, 3504, 12, 70, 1, "chevrolet chevelle malibu"⟩

/-- Sample row of `autompg` (plymouth satellite, model year 70). -/
def r70b : Row :=
  ⟨1, 18, 8, 318, 150, 3436, 11, 70, 1, "plymouth satellite"⟩

/-- Sample row of `autompg` with a different model year (amc gremlin,
model year 71). -/
def r71 : Row :=
  ⟨2, 19, 6, 232, 100, 2634, 13, 71, 1, "amc gremlin"⟩

/-- Three-row sample of the `autompg` table. -/
def sampleData : List Row := [r70a, r70b, r71]

instance {ε α : Type} [DecidableEq ε] [DecidableEq α] :
    DecidableEq (Except ε α) := fun a b =>
  match a, b with
  | Except.error x, Except.error y =>
      if h : x = y then isTrue (congrArg Except.error h)
      else isFalse (fun hc => h (Except.error.inj hc))
  | Except.error _, Except.ok _ => isFalse (fun hc => Except.noConfusion hc)
  | Except.ok _, Except.error _ => isFalse (fun hc => Except.noConfusion hc)
  | Except.ok x, Except.ok y =>
      if h : x = y then isTrue (congrArg Except.ok h)
      else isFalse (fun hc => h (Except.ok.inj hc))

/-! Basic lemmas about the embedded pandas operations. -/

lemma zip_self_filter (df : List Row) (p : Row → Bool) :
    ((df.zip (df.map p)).filter (fun rb => rb.2)).map Prod.fst = df.filter p := by
  induction df with
  | nil => rfl
  | cons a l ih =>
    cases h : p a <;> simp [List.filter_cons, h, ih]

lemma maskSelect_map (df : List Row) (p : Row → Bool) :
    maskSelect df (df.map p) = Except.ok (df.filter p) := by
  simp [maskSelect, zip_self_filter]

lemma mask_and_map (df : List Row) (p q : Row → Bool) :
    mask_and (df.map p) (df.map q) = df.map (fun r => p r && q r) := by
  induction df with
  | nil => rfl
  | cons a l ih => simp [mask_and] at ih ⊢

/-- Normal form of `filtered_mpg`: it never raises, and its rows are the
two filters applied in sequence, the year filter only when the widget
value is nonempty. -/
lemma filtered_mpg_eq (data : List Row) (w yrs : List Nat) (mr : ℚ × ℚ) :
    filtered_mpg data w yrs mr =
      Except.ok ((if w = [] then data else data.filter (yr_isin yrs)).filter
        (fun r => mpg_ge mr.1 r && mpg_le mr.2 r)) := by
  by_cases h : w = [] <;>
    simp [filtered_mpg, h, series_isin, series_mpg_ge, series_mpg_le,
      mask_and_map, maskSelect_map]

/-- Membership in a successful `filtered_mpg` output, when the widget
value is nonempty: the two predicates hold conjunctively. -/
lemma mem_filtered_ok (data : List Row) (w yrs : List Nat) (mr : ℚ × ℚ)
    (out : List Row) (hw : w ≠ [])
    (h : filtered_mpg data w yrs mr = Except.ok out) (r : Row) :
    r ∈ out ↔ r ∈ data ∧ r.yr ∈ yrs ∧ mr.1 ≤ r.mpg ∧ r.mpg ≤ mr.2 := by
  rw [filtered_mpg_eq] at h
  injection h with h
  subst h
  simp [hw, List.mem_filter, yr_isin, mpg_ge, mpg_le, and_assoc]
  tauto

/-! Claim theorems. -/

/-- Claim C1 (amended): for every nonempty selection of years, every mpg
range pair and every row, under the normal reactive invocation (the
`yrs` argument equals the `years` widget value) the row appears in the
output of `filtered_mpg` iff it is a row of the dataset whose `yr` is in
the selected set and whose `mpg` lies within the selected bounds,
conjunctively.  (As stated over every selection the claim fails: with an
empty selection the membership predicate is skipped, see the
counterexample.) -/
theorem c1_mem_filtered_mpg_iff (data : List Row) (yrs : List Nat)
    (mr : ℚ × ℚ) (r : Row) (hw : yrs ≠ []) (out : List Row)
    (h : filtered_mpg data yrs yrs mr = Except.ok out) :
    r ∈ out ↔ r ∈ data ∧ r.yr ∈ yrs ∧ mr.1 ≤ r.mpg ∧ r.mpg ≤ mr.2 :=
  mem_filtered_ok data yrs yrs mr out hw h r

/-- Claim C1, witness for the amended theorem at a concrete input. -/
theorem c1_witness :
    r70a ∈ [r70a, r70b] ↔
      r70a ∈ sampleData ∧ r70a.yr ∈ [70] ∧ (9 : ℚ) ≤ r70a.mpg ∧ r70a.mpg ≤ 47 :=
  c1_mem_filtered_mpg_iff sampleData [70] (9, 47) r70a (by decide)
    [r70a, r70b] (by decide)

/-- Claim C1, counterexample to the claim as stated: with the empty
selection of years (widget value and argument both empty, as in the
normal invocation) the output contains a row whose `yr` is not in the
selected set, so the conjunctive iff fails. -/
theorem c1_counterexample :
    filtered_mpg sampleData [] [] (9, 47) = Except.ok [r70a, r70b, r71] ∧
      r70a ∈ [r70a, r70b, r71] ∧ r70a.yr ∉ ([] : List Nat) := by
  decide

/-- Claim C2: for every selection of years and every mpg range pair, the
buffer produced by `filtered_file` is exactly the CSV serialization of
the rows returned by `filtered_mpg` for the same control values (and an
error, were one possible, would propagate unchanged). -/
theorem c2_filtered_file_eq_csv (data : List Row) (w yr : List Nat)
    (mr : ℚ × ℚ) :
    filtered_file data w yr mr = Except.map to_csv (filtered_mpg data w yr mr) := by
  cases h : filtered_mpg data w yr mr <;> simp [filtered_file, h, Except.map]

/-- Claim C3 (amended): the output of `filtered_mpg` is determined by its
declared arguments together with only the emptiness of the `years`
widget value read by the body: two invocations with equal `(yrs, mpg)`
arguments whose widget values agree on being empty give equal outputs.
(As stated the claim fails: the body reads `years.value`, so equal
arguments with widget values that differ in emptiness give different
outputs, see the counterexample.) -/
theorem c3_value_independence (data : List Row) (w1 w2 yrs : List Nat)
    (mr : ℚ × ℚ) (h : w1 = [] ↔ w2 = []) :
    filtered_mpg data w1 yrs mr = filtered_mpg data w2 yrs mr := by
  rw [filtered_mpg_eq, filtered_mpg_eq, if_congr h rfl rfl]

/-- Claim C3, witness for the amended theorem at a concrete input: the
two widget values differ but are both nonempty, and the outputs agree. -/
theorem c3_witness :
    (([70] : List Nat) = [] ↔ ([99] : List Nat) = []) ∧
      filtered_mpg sampleData [70] [70] (9, 47) =
        filtered_mpg sampleData [99] [70] (9, 47) :=
  ⟨by decide, c3_value_independence sampleData [70] [99] [70] (9, 47) (by decide)⟩

/-- Claim C3, counterexample to the claim as stated: two invocations with
the same declared arguments `yrs = [70]`, `mpg = (9, 47)` but different
`years` widget values (nonempty vs empty) return different outputs. -/
theorem c3_counterexample :
    filtered_mpg sampleData [70] [70] (9, 47) ≠
      filtered_mpg sampleData [] [70] (9, 47) := by
  decide

/-- Claim C4: for every selection of years and every mpg range pair (and
every dataset and widget value), `filtered_mpg` returns normally with a
(possibly empty) list of rows: the error branch of the pandas selection
is never taken. -/
theorem c4_no_error (data : List Row) (w yrs : List Nat) (mr : ℚ × ℚ) :
    ∃ rows : List Row, filtered_mpg data w yrs mr = Except.ok rows :=
  ⟨_, filtered_mpg_eq data w yrs mr⟩

/-- Claim C5: the conjunctive filter is idempotent: applying
`filtered_mpg` with the same control values to the rows it returned
yields exactly those rows again. -/
theorem c5_idempotent (data : List Row) (w yrs : List Nat) (mr : ℚ × ℚ)
    (out : List Row) (h : filtered_mpg data w yrs mr = Except.ok out) :
    filtered_mpg out w yrs mr = Except.ok out := by
  rw [filtered_mpg_eq] at h
  injection h with h
  rw [filtered_mpg_eq]
  have hP : ∀ r ∈ out, (mpg_ge mr.1 r && mpg_le mr.2 r) = true := by
    intro r hr
    rw [← h] at hr
    exact (List.mem_filter.mp hr).2
  by_cases hw : w = []
  · rw [if_pos hw, List.filter_eq_self.mpr hP]
  · have hY : ∀ r ∈ out, yr_isin yrs r = true := by
      intro r hr
      rw [← h] at hr
      have hb := (List.mem_filter.mp hr).1
      rw [if_neg hw] at hb
      exact (List.mem_filter.mp hb).2
    rw [if_neg hw, List.filter_eq_self.mpr hY, List.filter_eq_self.mpr hP]

/-- Claim C5, witness at a concrete input. -/
theorem c5_witness :
    filtered_mpg [r70a, r70b] [70] [70] (9, 47) = Except.ok [r70a, r70b] :=
  c5_idempotent sampleData [70] [70] (9, 47) [r70a, r70b] (by decide)

/-- Claim C6: the range predicate built from the two series comparisons
is inclusive at both ends: a row satisfies it exactly when
`lo ≤ mpg` and `mpg ≤ hi`, so rows whose `mpg` equals either selected
bound are retained. -/
theorem c6_range_inclusive (mr : ℚ × ℚ) (r : Row) :
    (mpg_ge mr.1 r && mpg_le mr.2 r) = true ↔ mr.1 ≤ r.mpg ∧ r.mpg ≤ mr.2 := by
  simp [mpg_ge, mpg_le]

/-- Claim C7: executing `filtered_mpg` and `filtered_file` leaves the
global state, in particular the `autompg` table, unchanged: the
state-passing forms of the two calls return the state as given. -/
theorem c7_state_unchanged (s : GlobalState) (yrs : List Nat) (mr : ℚ × ℚ) :
    (run_filtered_mpg s yrs mr).2 = s ∧ (run_filtered_file s yrs mr).2 = s :=
  ⟨rfl, rfl⟩

/-- Claim C8: when the `years` widget value is empty the membership
predicate is skipped entirely: `filtered_mpg` returns every row of the
dataset whose `mpg` lies within the selected bounds, for any `yrs`
argument. -/
theorem c8_empty_years_skips_isin (data : List Row) (yrs : List Nat)
    (mr : ℚ × ℚ) :
    filtered_mpg data [] yrs mr =
      Except.ok (data.filter (fun r => mpg_ge mr.1 r && mpg_le mr.2 r)) := by
  rw [filtered_mpg_eq, if_pos rfl]

/-- Claim C9: the output of `filtered_mpg` is an order-preserving
subsequence of the dataset: every output row is a dataset row, no row is
taken more often than it occurs, and the relative order is preserved. -/
theorem c9_sublist (data : List Row) (w yrs : List Nat) (mr : ℚ × ℚ)
    (out : List Row) (h : filtered_mpg data w yrs mr = Except.ok out) :
    out.Sublist data := by
  rw [filtered_mpg_eq] at h
  injection h with h
  subst h
  by_cases hw : w = []
  · rw [if_pos hw]
    exact List.filter_sublist _
  · rw [if_neg hw]
    exact (List.filter_sublist _).trans (List.filter_sublist _)

/-- Claim C9, witness at a concrete input. -/
theorem c9_witness : ([r70a, r70b] : List Row).Sublist sampleData :=
  c9_sublist sampleData [70] [70] (9, 47) [r70a, r70b] (by decide)

/-- Claim C10: the filter is monotone in its controls: with a nonempty
selection `s1 ⊆ s2` and mpg interval `[lo1, hi1]` contained in
`[lo2, hi2]`, every row returned for `(s1, (lo1, hi1))` is also returned
for `(s2, (lo2, hi2))` (widget values as in the normal invocation). -/
theorem c10_monotone (data : List Row) (s1 s2 : List Nat)
    (lo1 hi1 lo2 hi2 : ℚ) (out1 out2 : List Row) (r : Row)
    (hne : s1 ≠ []) (hsub : s1 ⊆ s2)
    (hicc : Set.Icc lo1 hi1 ⊆ Set.Icc lo2 hi2)
    (h1 : filtered_mpg data s1 s1 (lo1, hi1) = Except.ok out1)
    (h2 : filtered_mpg data s2 s2 (lo2, hi2) = Except.ok out2)
    (hr : r ∈ out1) : r ∈ out2 := by
  have hne2 : s2 ≠ [] := by
    cases s1 with
    | nil => exact absurd rfl hne
    | cons a t =>
      intro h2e
      exact absurd (hsub (List.mem_cons_self a t)) (by simp [h2e])
  obtain ⟨hd, hy, hlo, hhi⟩ :=
    (mem_filtered_ok data s1 s1 (lo1, hi1) out1 hne h1 r).mp hr
  have hm : r.mpg ∈ Set.Icc lo2 hi2 := hicc (Set.mem_Icc.mpr ⟨hlo, hhi⟩)
  exact (mem_filtered_ok data s2 s2 (lo2, hi2) out2 hne2 h2 r).mpr
    ⟨hd, hsub hy, (Set.mem_Icc.mp hm).1, (Set.mem_Icc.mp hm).2⟩

/-- Claim C10, witness at a concrete input. -/
theorem c10_witness : r70a ∈ [r70a, r70b, r71] :=
  c10_monotone sampleData [70] [70, 71] 10 40 9 47 [r70a, r70b]
    [r70a, r70b, r71] r70a (by decide) (by decide)
    (Set.Icc_subset_Icc (by norm_num) (by norm_num))
    (by decide) (by decide) (by decide)
